import Mathlib

/-!
Shallow embedding of the ChatbotQT conversation core (src/main.py).

The embedding models the state owned by `ChatbotWindow` together with the
two persistence collaborators (`APIKeyManager`, `DatabaseManager`) and the
observable effects (messages displayed in the chat area, requests handed to
`ApiWorker`).  Pure Qt presentation concerns (bubbles, themes, layout,
animations) are not modelled; what is modelled is every mutation of
`api_key`, `model`, `personality`, `context_window`, `conversation_history`,
`message_cache`, the sqlite message table, plus the arguments of every
`add_message` call and every `ApiWorker` dispatch.

The sqlite table `messages` is modelled as a list of rows in insertion
order; `timestamp DATETIME DEFAULT CURRENT_TIMESTAMP` is modelled as
strictly monotone across rows, so `ORDER BY timestamp DESC` is reversal of
insertion order.
-/

namespace ChatbotQT

/-- One row of the `messages` table / one element of the in-memory message
lists: a `{"role": ..., "content": ...}` dict in the Python source. -/
structure Msg where
  role : String
  content : String
deriving DecidableEq, Repr

/-- Python `str.strip()` with no argument: remove leading and trailing
whitespace characters. -/
def pyStrip (s : String) : String :=
  ⟨((s.data.dropWhile Char.isWhitespace).reverse.dropWhile Char.isWhitespace).reverse⟩

/-- Embedding of `APIKeyManager.validate_api_key` (src/main.py:41-43):
`bool(key and len(key.strip()) >= 10)`. -/
def validate_api_key (key : String) : Bool :=
  decide (key ≠ "") && decide (10 ≤ (pyStrip key).length)

/-- Embedding of `APIKeyManager.save_key` (src/main.py:65-80), with the credential-cache
file content modelled as `Option String` (`none` = file absent) and the
I/O-error path not modelled: if validation fails return `false` and leave
the store unchanged, otherwise overwrite the store with the raw candidate
and return `true`. -/
def save_key (stored : Option String) (key : String) : Option String × Bool :=
  if validate_api_key key then (some key, true) else (stored, false)

/-- Embedding of `DatabaseManager.save_message` (src/main.py:315-322): append one row to
the `messages` table. -/
def save_message (log : List Msg) (role content : String) : List Msg :=
  log ++ [⟨role, content⟩]

/-- Embedding of `DatabaseManager.get_recent_messages` (src/main.py:324-331):
`SELECT role, content FROM messages ORDER BY timestamp DESC LIMIT ?`.
With strictly monotone timestamps this is the reversed insertion order,
truncated to `limit` rows; the fetched order (newest first) is returned
as-is. -/
def get_recent_messages (limit : Nat) (log : List Msg) : List Msg :=
  log.reverse.take limit

/-- Embedding of `ChatbotWindow.get_personality_prompt` (src/main.py:687-694). -/
def get_personality_prompt (personality : String) : String :=
  if personality = "Professional" then
    "You are a professional assistant. Provide clear, concise, and accurate responses in a formal tone."
  else if personality = "Friendly" then
    "You are a friendly and approachable assistant. Use a casual, warm tone and engage in natural conversation."
  else if personality = "Technical" then
    "You are a technical expert. Provide detailed technical explanations and use industry-standard terminology."
  else if personality = "Creative" then
    "You are a creative assistant. Think outside the box and provide innovative solutions with an imaginative flair."
  else
    "You are a professional assistant. Provide clear, concise, and accurate responses in a formal tone."

/-- Model of `self.model.split(" (Free)")[0]` (src/main.py:784), on character lists:
the text before the first occurrence of `sep`, or the whole list when `sep`
does not occur. -/
def splitFirst (sep : List Char) (xs : List Char) : List Char :=
  match xs with
  | [] => []
  | c :: rest => if sep <+: (c :: rest) then [] else c :: splitFirst sep rest

/-- The separator string `" (Free)"` of src/main.py:784, as characters. -/
def freeSep : List Char := " (Free)".data

/-- The model name actually handed to `ApiWorker`
(src/main.py:784: `model_name = self.model.split(" (Free)")[0]`). -/
def cleanModelName (model : String) : String :=
  ⟨splitFirst freeSep model.data⟩

/-- The mutable state of `ChatbotWindow` relevant to the conversation core,
plus the durable stores and the observable effect logs.

* `displayed` records every `add_message(text, is_user)` call, in order;
* `dispatched` records every `ApiWorker(api_key, model, messages)` start,
  as the `(model_name, messages)` pair it was given;
* `loading` models whether `self.loading_indicator` is set. -/
structure ChatState where
  api_key : Option String
  model : String
  context_window : Nat
  personality : String
  db : List Msg
  conversation_history : List Msg
  message_cache : List Msg
  displayed : List (String × Bool)
  dispatched : List (String × List Msg)
  loading : Bool
deriving DecidableEq, Repr

/-- Embedding of `ChatbotWindow.__init__` (src/main.py:338-499), restricted to the
conversation state: defaults `model = "openai/gpt-3.5-turbo"`,
`context_window = 10`, `personality = "Professional"`; seeds
`conversation_history` and `message_cache` with
`get_recent_messages(context_window)` — the two attributes alias the SAME
Python list object (lines 356-358), so the system prompt appended to
`conversation_history` at lines 485-488 also lands at the END of
`message_cache`.  The startup display loop (lines 491-492) shows
`reversed(conversation_history)`. -/
def initState (key : Option String) (db : List Msg) : ChatState :=
  let recent := get_recent_messages 10 db
  let shared := recent ++ [⟨"system", get_personality_prompt "Professional"⟩]
  { api_key := key
    model := "openai/gpt-3.5-turbo"
    context_window := 10
    personality := "Professional"
    db := db
    conversation_history := shared
    message_cache := shared
    displayed := shared.reverse.map (fun m => (m.content, m.role = "user"))
    dispatched := []
    loading := false }

/-- Model of the append-then-pop pattern duplicated at src/main.py:796-798 and
819-821: `cache.append(msg); if len(cache) > context_window: cache.pop(0)`. -/
def pushEvict (context_window : Nat) (cache : List Msg) (msg : Msg) : List Msg :=
  let cache1 := cache ++ [msg]
  if context_window < cache1.length then cache1.tail else cache1

/-- Embedding of `ChatbotWindow.send_message` (src/main.py:775-804): strip the input;
return doing nothing if it is empty; otherwise display the user message,
compute the cleaned model name, show the loading indicator, persist the
user row, append it to `message_cache` evicting `message_cache[0]` when the
length exceeds `context_window`, and start an `ApiWorker` with the cache. -/
def send_message (st : ChatState) (input : String) : ChatState :=
  let user_message := pyStrip input
  if user_message = "" then st
  else
    let cache2 := pushEvict st.context_window st.message_cache ⟨"user", user_message⟩
    { st with
      db := save_message st.db "user" user_message
      message_cache := cache2
      displayed := st.displayed ++ [(user_message, true)]
      dispatched := st.dispatched ++ [(cleanModelName st.model, cache2)]
      loading := true }

/-- Embedding of `ChatbotWindow.handle_api_response` (src/main.py:806-823): clear the
loading indicator, persist the assistant row, append it to `message_cache`
with the same one-step eviction, and display it. -/
def handle_api_response (st : ChatState) (bot_response : String) : ChatState :=
  { st with
    db := save_message st.db "assistant" bot_response
    message_cache := pushEvict st.context_window st.message_cache ⟨"assistant", bot_response⟩
    displayed := st.displayed ++ [(bot_response, false)]
    loading := false }

/-- Embedding of `ChatbotWindow.handle_api_error` (src/main.py:825-832): clear the
loading indicator and display
`"Error: Could not get response from API. " + error_message` as a
non-user (assistant-side) bubble.  Nothing else is touched. -/
def handle_api_error (st : ChatState) (error_message : String) : ChatState :=
  { st with
    displayed := st.displayed ++
      [("Error: Could not get response from API. " ++ error_message, false)]
    loading := false }

/-- The settings chosen in the `ChatSettings` dialog. -/
structure Config where
  model : String
  personality : String
  context_window : Nat
deriving DecidableEq, Repr

/-- Embedding of `ChatbotWindow.show_settings` (src/main.py:696-727), accepted-dialog
path: if every field equals the current configuration nothing happens;
otherwise adopt the new configuration, reset `conversation_history` to the
single new system prompt, reset `message_cache` to the EMPTY list (line
724), and display the "Settings updated" notice. -/
def show_settings (st : ChatState) (c : Config) : ChatState :=
  if c.model = st.model ∧ c.personality = st.personality ∧
      c.context_window = st.context_window then st
  else
    { st with
      model := c.model
      personality := c.personality
      context_window := c.context_window
      conversation_history := [⟨"system", get_personality_prompt c.personality⟩]
      message_cache := []
      displayed := st.displayed ++ [("Settings updated. Starting new conversation.", false)] }

/-- One user-visible operation on a running session, for stating
trace-level invariants: a submit of user text or a successful completion. -/
inductive Op where
  | submit (s : String)
  | complete (s : String)
deriving DecidableEq, Repr

/-- Apply one operation. -/
def applyOp (st : ChatState) : Op → ChatState
  | .submit s => send_message st s
  | .complete s => handle_api_response st s

/-- Run a sequence of operations from a state. -/
def run (st : ChatState) (ops : List Op) : ChatState :=
  ops.foldl applyOp st

/-- A concrete persisted user row, for concrete evaluations. -/
def rowA : Msg := ⟨"user", "first question"⟩

/-- A concrete persisted assistant row, for concrete evaluations. -/
def rowB : Msg := ⟨"assistant", "first answer"⟩

/-- A concrete operation trace: five user submits, each followed by a
successful completion. -/
def fiveCycles : List Op :=
  [.submit "m1", .complete "r1", .submit "m2", .complete "r2",
   .submit "m3", .complete "r3", .submit "m4", .complete "r4",
   .submit "m5", .complete "r5"]

/-- A concrete idle state: startup with a cached credential and an empty
message log. -/
def idleState : ChatState := initState (some "abcdefghij") []

/-- A concrete state with one request in flight: startup with a cached
credential and an empty log, then one submit. -/
def pendingState : ChatState := send_message (initState (some "valid-key-12345") []) "hello"

/-- The configuration `idleState` already has. -/
def sameConfig : Config := ⟨"openai/gpt-3.5-turbo", "Professional", 10⟩

/-- A configuration differing from the startup configuration in every
field. -/
def newConfig : Config := ⟨"openai/gpt-4", "Friendly", 5⟩

/-! ## Helper lemmas -/

/-- What `get_recent_messages` returns, phrased on the insertion-ordered
table: the suffix of the most recent `n` rows, reversed (newest first). -/
theorem recent_drop_reverse (n : Nat) (log : List Msg) :
    get_recent_messages n log = (log.drop (log.length - n)).reverse := by
  calc log.reverse.take n
      = ((log.reverse.take n).reverse).reverse := by rw [List.reverse_reverse]
    _ = (log.rtake n).reverse := by rw [List.rtake_eq_reverse_take_reverse]
    _ = (log.drop (log.length - n)).reverse := rfl

/-- One append-with-eviction step keeps the cache length at or below
`context_window + 1`. -/
theorem pushEvict_length (cw : Nat) (cache : List Msg) (m : Msg)
    (h : cache.length ≤ cw + 1) : (pushEvict cw cache m).length ≤ cw + 1 := by
  unfold pushEvict
  dsimp only
  split <;> simp only [List.length_tail, List.length_append, List.length_cons,
    List.length_nil] at * <;> omega

/-- Neither submit nor completion changes the configured window size. -/
theorem applyOp_context_window (st : ChatState) (op : Op) :
    (applyOp st op).context_window = st.context_window := by
  cases op with
  | submit s =>
    show (send_message st s).context_window = st.context_window
    unfold send_message
    dsimp only
    split <;> rfl
  | complete s => rfl

/-- One operation preserves the cache-length bound. -/
theorem cache_bound_step (st : ChatState) (op : Op)
    (h : st.message_cache.length ≤ st.context_window + 1) :
    (applyOp st op).message_cache.length ≤ (applyOp st op).context_window + 1 := by
  rw [applyOp_context_window]
  cases op with
  | submit s =>
    show (send_message st s).message_cache.length ≤ st.context_window + 1
    unfold send_message
    dsimp only
    split
    · exact h
    · exact pushEvict_length _ _ _ h
  | complete s =>
    exact pushEvict_length _ _ _ h

/-- Any operation sequence preserves the cache-length bound. -/
theorem cache_bound_run (ops : List Op) (st : ChatState)
    (h : st.message_cache.length ≤ st.context_window + 1) :
    (run st ops).message_cache.length ≤ (run st ops).context_window + 1 := by
  induction ops generalizing st with
  | nil => exact h
  | cons op rest ih => exact ih (applyOp st op) (cache_bound_step st op h)

/-- The startup state satisfies the cache-length bound. -/
theorem initState_cache_bound (key : Option String) (db : List Msg) :
    (initState key db).message_cache.length ≤ (initState key db).context_window + 1 := by
  show (get_recent_messages 10 db ++ [_]).length ≤ 10 + 1
  simp only [get_recent_messages, List.length_append, List.length_take,
    List.length_reverse, List.length_cons, List.length_nil]
  omega

/-- When the separator occurs nowhere in the input, `splitFirst` returns the
whole input. -/
theorem splitFirst_of_no_occurrence (sep xs : List Char) (h : ¬ sep <:+: xs) :
    splitFirst sep xs = xs := by
  induction xs with
  | nil => rfl
  | cons c rest ih =>
    rw [List.infix_cons_iff] at h
    push_neg at h
    rw [splitFirst, if_neg h.1, ih h.2]

/-- When the separator occurs in the input, `splitFirst` returns exactly the
text before its first occurrence: the result followed by the separator is a
prefix of the input, and no shorter text has that property. -/
theorem splitFirst_first_occurrence (sep : List Char) (hsep : sep ≠ []) (xs : List Char)
    (h : sep <:+: xs) :
    splitFirst sep xs ++ sep <+: xs ∧
    ∀ t, t ++ sep <+: xs → (splitFirst sep xs).length ≤ t.length := by
  induction xs with
  | nil => exact absurd (List.infix_nil.mp h) hsep
  | cons c rest ih =>
    by_cases hp : sep <+: c :: rest
    · rw [splitFirst, if_pos hp]
      exact ⟨by simpa using hp, fun t ht => Nat.zero_le _⟩
    · have hin : sep <:+: rest := (List.infix_cons_iff.mp h).resolve_left hp
      obtain ⟨ih1, ih2⟩ := ih hin
      rw [splitFirst, if_neg hp]
      constructor
      · obtain ⟨r, hr⟩ := ih1
        exact ⟨r, by simp [List.append_assoc, hr]⟩
      · intro t ht
        match t with
        | [] => exact absurd (by simpa using ht) hp
        | c' :: t' =>
          rw [List.cons_append, List.cons_prefix_cons] at ht
          have h2 := ih2 t' ht.2
          simpa using Nat.succ_le_succ h2

/-! ## Claim C1 — `get_recent_messages` -/

/-- C1, corrected.  `get_recent_messages n` returns at most `n` rows, namely
the `n` most recent ones (the suffix `log.drop (log.length - n)` of the
insertion-ordered table), but in reverse chronological (newest-first) order
— the `ORDER BY timestamp DESC` fetch order is returned unreversed — and
the empty sequence on a fresh store.  The original claim's
"chronological, oldest-first order" does not hold, see
`c1_counterexample`. -/
theorem c1_recent_messages (n : Nat) (log : List Msg) :
    (get_recent_messages n log).length ≤ n ∧
    get_recent_messages n log = (log.drop (log.length - n)).reverse ∧
    (log = [] → get_recent_messages n log = []) := by
  refine ⟨?_, recent_drop_reverse n log, ?_⟩
  · simp [get_recent_messages, List.length_take]
  · intro h; subst h; simp [get_recent_messages]

/-- Witness for `c1_recent_messages` on the fresh store. -/
theorem c1_recent_messages_witness :
    get_recent_messages 3 ([] : List Msg) = [] :=
  (c1_recent_messages 3 []).2.2 rfl

/-- C1 counterexample: on the two-row log `[rowA, rowB]` (in insertion,
i.e. chronological, order) the claim demands `recent(2) = [rowA, rowB]`,
but `get_recent_messages` returns `[rowB, rowA]`. -/
theorem c1_counterexample :
    get_recent_messages 2 [rowA, rowB] = [rowB, rowA] ∧
    get_recent_messages 2 [rowA, rowB] ≠ [rowA, rowB] := by decide

/-! ## Claim C2 — Working Set shape invariant -/

/-- C2, corrected.  After every sequence of submits and successful
completions from a startup state, the Working Set (`message_cache`, the
list dispatched to the remote client) has total length at most
`context_window + 1`.  That numeric bound is all that survives of the
claim: the Working Set is a flat FIFO list in which the system turn enjoys
no special position or protection — eviction (`pop(0)`) drops the oldest
element regardless of role, so the system turn itself is evicted once
enough turns accumulate, see `c2_counterexample`. -/
theorem c2_working_set_bound (key : Option String) (db : List Msg) (ops : List Op) :
    (run (initState key db) ops).message_cache.length ≤
      (run (initState key db) ops).context_window + 1 :=
  cache_bound_run ops (initState key db) (initState_cache_bound key db)

/-- C2 counterexample: starting from a fresh store with a cached key
(`context_window = 10`), after five submits each followed by a successful
completion, the Working Set holds ten user/assistant turns and NO system
turn at all — the claim's "exactly one system Turn followed by …" is
false on this reachable state. -/
theorem c2_counterexample :
    ((run (initState (some "0123456789") []) fiveCycles).message_cache.countP
        (fun m => m.role == "system")) = 0 ∧
    (run (initState (some "0123456789") []) fiveCycles).message_cache.length = 10 := by
  decide

/-! ## Claim C3 — startup seeding -/

/-- C3, corrected.  At startup the Working Set is seeded with up to
`context_window = 10` most-recent turns from the Message Log — but in
newest-first (reversed) order, not oldest first — and the current system
Turn is then appended after them; `conversation_history` aliases the same
list.  So for a log of `m ≥ k` turns the non-system portion is the last
`k` log entries in REVERSED order, not in their original order, see
`c3_counterexample`. -/
theorem c3_startup_seed (key : Option String) (db : List Msg) :
    (initState key db).message_cache =
      (db.drop (db.length - 10)).reverse ++
        [⟨"system", get_personality_prompt "Professional"⟩] ∧
    (initState key db).conversation_history = (initState key db).message_cache := by
  constructor
  · show get_recent_messages 10 db ++ _ = _
    rw [recent_drop_reverse]
  · rfl

/-- C3 counterexample: seeding from the log `[rowA, rowB]` (chronological
order) yields `[rowB, rowA, system]`, not the claimed `[rowA, rowB,
system]`. -/
theorem c3_counterexample :
    (initState (some "0123456789") [rowA, rowB]).message_cache =
      [rowB, rowA, ⟨"system", get_personality_prompt "Professional"⟩] ∧
    (initState (some "0123456789") [rowA, rowB]).message_cache ≠
      [rowA, rowB, ⟨"system", get_personality_prompt "Professional"⟩] := by decide

/-! ## Claim C4 — authentication failure handling -/

/-- C4, corrected.  On every completion failure — however classified,
including an authentication rejection — `handle_api_error` leaves the
cached credential, the dispatched-request history (hence: no automatic
re-submission, ever), the persisted log, and the Working Set unchanged; it
only clears the loading indicator (and displays an error bubble).  The
claimed clear-credential / await-credential / retry-once behaviour does
not exist in the code: a credential prompt occurs only at startup when no
key is cached. -/
theorem c4_failure_never_retries (st : ChatState) (error_message : String) :
    (handle_api_error st error_message).api_key = st.api_key ∧
    (handle_api_error st error_message).dispatched = st.dispatched ∧
    (handle_api_error st error_message).db = st.db ∧
    (handle_api_error st error_message).message_cache = st.message_cache ∧
    (handle_api_error st error_message).loading = false :=
  ⟨rfl, rfl, rfl, rfl, rfl⟩

/-- C4 counterexample: in a concrete pending state (one request in
flight), an authentication-style API error leaves the cached credential in
place and dispatches nothing new — the claim's credential clearing and
single automatic retry are refuted at this input. -/
theorem c4_counterexample :
    (handle_api_error pendingState "API Error: 401 Unauthorized: invalid credentials").api_key
        = some "valid-key-12345" ∧
    (handle_api_error pendingState "API Error: 401 Unauthorized: invalid credentials").dispatched
        = pendingState.dispatched ∧
    (handle_api_error pendingState "API Error: 401 Unauthorized: invalid credentials").db
        = pendingState.db ∧
    pendingState.api_key = some "valid-key-12345" ∧
    pendingState.dispatched.length = 1 :=
  ⟨rfl, rfl, rfl, by decide, by decide⟩

/-! ## Claim C5 — blank submit is a no-op -/

/-- C5, confirmed.  For every input that is blank after trimming, `submit`
(`send_message`) is a complete no-op: the resulting state — Working Set,
persisted log, display list, dispatch list, loading flag, everything — is
the unchanged input state. -/
theorem c5_blank_submit_noop (st : ChatState) (input : String)
    (h : pyStrip input = "") : send_message st input = st := by
  rw [send_message]
  dsimp only
  rw [if_pos h]

/-- Witness for `c5_blank_submit_noop` at the whitespace input `"   "`. -/
theorem c5_blank_submit_noop_witness :
    pyStrip "   " = "" ∧ send_message idleState "   " = idleState :=
  ⟨by decide, c5_blank_submit_noop idleState "   " (by decide)⟩

/-! ## Claim C6 — reconfiguration -/

/-- C6, corrected.  A field-for-field identical configuration is a
complete no-op.  If any field differs, the new configuration is adopted,
the durable log is untouched — but the Working Set (`message_cache`, the
list dispatched to the remote client) is cleared to the EMPTY list: the
fresh system Turn for the new personality is placed only in the separate
display history `conversation_history` (the aliasing of the two lists is
broken at this point), not in the Working Set, see `c6_counterexample`. -/
theorem c6_reconfigure (st : ChatState) (c : Config) :
    (c.model = st.model ∧ c.personality = st.personality ∧
        c.context_window = st.context_window →
      show_settings st c = st) ∧
    (¬ (c.model = st.model ∧ c.personality = st.personality ∧
        c.context_window = st.context_window) →
      (show_settings st c).message_cache = [] ∧
      (show_settings st c).conversation_history =
        [⟨"system", get_personality_prompt c.personality⟩] ∧
      (show_settings st c).db = st.db ∧
      (show_settings st c).model = c.model ∧
      (show_settings st c).personality = c.personality ∧
      (show_settings st c).context_window = c.context_window) := by
  constructor
  · intro h
    rw [show_settings, if_pos h]
  · intro h
    rw [show_settings, if_neg h]
    exact ⟨rfl, rfl, rfl, rfl, rfl, rfl⟩

/-- Witness for `c6_reconfigure`: the startup configuration is a no-op,
and a changed configuration empties the Working Set. -/
theorem c6_reconfigure_witness :
    show_settings idleState sameConfig = idleState ∧
    (show_settings idleState newConfig).message_cache = [] :=
  ⟨(c6_reconfigure idleState sameConfig).1 (by decide),
   ((c6_reconfigure idleState newConfig).2 (by decide)).1⟩

/-- C6 counterexample: changing the configuration leaves a Working Set
that is empty, not the claimed singleton holding a fresh system Turn for
the new personality (the log is indeed untouched). -/
theorem c6_counterexample :
    (show_settings idleState newConfig).message_cache = [] ∧
    (show_settings idleState newConfig).message_cache ≠
      [⟨"system", get_personality_prompt "Friendly"⟩] ∧
    (show_settings idleState newConfig).db = idleState.db := by decide

/-! ## Claim C7 — non-authentication failures surfaced -/

/-- C7, confirmed.  Every completion failure (the code does not classify;
non-authentication failures are therefore covered) is surfaced to the
presentation layer as one extra non-user (assistant-side) bubble whose text
carries the `"Error:"` indicator as a prefix; the loading state is cleared
(back to idle), nothing is evicted from or added to the Working Set, no
request is re-sent, the log — including the user turn persisted at submit
time — is untouched, and the session remains usable: a subsequent
non-blank submit dispatches exactly one new request. -/
theorem c7_failure_surfaced (st : ChatState) (error_message : String) :
    (handle_api_error st error_message).displayed =
      st.displayed ++ [("Error: Could not get response from API. " ++ error_message, false)] ∧
    ("Error:".data <+: ("Error: Could not get response from API. " ++ error_message).data) ∧
    (handle_api_error st error_message).message_cache = st.message_cache ∧
    (handle_api_error st error_message).dispatched = st.dispatched ∧
    (handle_api_error st error_message).db = st.db ∧
    (handle_api_error st error_message).loading = false ∧
    (∀ s, pyStrip s ≠ "" →
      (send_message (handle_api_error st error_message) s).dispatched.length
        = st.dispatched.length + 1) := by
  refine ⟨rfl, ?_, rfl, rfl, rfl, rfl, ?_⟩
  · rw [String.data_append]
    exact (by decide : "Error:".data <+: "Error: Could not get response from API. ".data).trans
      (List.prefix_append _ _)
  · intro s hs
    rw [send_message]
    dsimp only
    rw [if_neg hs]
    simp [handle_api_error]

/-- Witness for `c7_failure_surfaced`: after a timeout error the session
accepts a new submit. -/
theorem c7_failure_surfaced_witness :
    (send_message (handle_api_error idleState "timeout") "hi").dispatched.length
      = idleState.dispatched.length + 1 :=
  (c7_failure_surfaced idleState "timeout").2.2.2.2.2.2 "hi" (by decide)

/-! ## Claim C8 — credential save validation -/

/-- C8, corrected.  `save_key` fails returning the store unchanged exactly
when the candidate is the empty string OR its whitespace-trimmed form is
shorter than 10 characters — the length test is applied to
`candidate.strip()` (src/main.py:43), not to the raw candidate, so a
non-blank candidate of 10+ characters can still be rejected, see
`c8_counterexample`.  In every other case the raw candidate overwrites the
store and success is returned. -/
theorem c8_save_key_spec (stored : Option String) (key : String) :
    ((save_key stored key).2 = false ↔ key = "" ∨ (pyStrip key).length < 10) ∧
    ((save_key stored key).2 = false → (save_key stored key).1 = stored) ∧
    ((save_key stored key).2 = true → (save_key stored key).1 = some key) := by
  unfold save_key validate_api_key
  by_cases hk : key = ""
  · simp [hk]
  · by_cases hl : 10 ≤ (pyStrip key).length
    · simp [hk, hl]
    · simp [hk, hl]
      omega

/-- Witness for `c8_save_key_spec`: a valid candidate overwrites the
store; an invalid one leaves it alone. -/
theorem c8_save_key_spec_witness :
    (save_key none "abcdefghij").1 = some "abcdefghij" ∧
    (save_key (some "0123456788") "short").1 = some "0123456788" :=
  ⟨(c8_save_key_spec none "abcdefghij").2.2 (by decide),
   (c8_save_key_spec (some "0123456788") "short").2.1 (by decide)⟩

/-- C8 counterexample: the candidate `"  abcdefgh  "` is not blank (it
trims to `"abcdefgh"`) and is 12 ≥ 10 characters long, yet `save_key`
fails and leaves the store unchanged — the claim says every such
candidate succeeds. -/
theorem c8_counterexample :
    (save_key (some "0123456789") "  abcdefgh  ").2 = false ∧
    (save_key (some "0123456789") "  abcdefgh  ").1 = some "0123456789" ∧
    "  abcdefgh  " ≠ "" ∧
    pyStrip "  abcdefgh  " ≠ "" ∧
    10 ≤ "  abcdefgh  ".length := by decide

/-! ## Claim C9 — error bubbles are never persisted -/

/-- C9, confirmed.  `handle_api_error` leaves both the Working Set and the
persisted log exactly as they were (only the display list grows), so the
synthetic error text enters no later request payload and no
`get_recent_messages` result; the user turn persisted at submit time is
exactly what remains. -/
theorem c9_error_not_persisted (st : ChatState) (error_message : String) :
    (handle_api_error st error_message).message_cache = st.message_cache ∧
    (handle_api_error st error_message).db = st.db ∧
    ∀ n, get_recent_messages n (handle_api_error st error_message).db
        = get_recent_messages n st.db :=
  ⟨rfl, rfl, fun _ => rfl⟩

/-! ## Claim C10 — model identifier cleaning -/

/-- C10, confirmed.  Every dispatch carries `cleanModelName` of the
configured model string, and `cleanModelName` is exactly "the text before
the first occurrence of the suffix `" (Free)"`": when the separator does
not occur the configured string is passed unchanged, and when it occurs
the result followed by the separator is a prefix of the configured string
and no shorter text has that property (so the truncation is at the FIRST
occurrence). -/
theorem c10_model_name_sent (m : String) :
    (∀ st input, (send_message st input).dispatched = st.dispatched ∨
      (send_message st input).dispatched =
        st.dispatched ++ [(cleanModelName st.model, (send_message st input).message_cache)]) ∧
    (¬ freeSep <:+: m.data → cleanModelName m = m) ∧
    (freeSep <:+: m.data →
      (cleanModelName m).data ++ freeSep <+: m.data ∧
      ∀ t, t ++ freeSep <+: m.data → (cleanModelName m).data.length ≤ t.length) := by
  refine ⟨?_, ?_, ?_⟩
  · intro st input
    rw [send_message]
    dsimp only
    by_cases hs : pyStrip input = ""
    · rw [if_pos hs]; exact Or.inl rfl
    · rw [if_neg hs]; exact Or.inr rfl
  · intro h
    exact String.ext (splitFirst_of_no_occurrence freeSep m.data h)
  · intro h
    exact splitFirst_first_occurrence freeSep (by decide) m.data h

/-- Witness for `c10_model_name_sent` on a paid model id (no suffix, passed
unchanged) and on a free model id (truncated before the suffix). -/
theorem c10_model_name_sent_witness :
    cleanModelName "anthropic/claude-2" = "anthropic/claude-2" ∧
    (cleanModelName "openai/gpt-3.5-turbo (Free)").data ++ freeSep <+:
      "openai/gpt-3.5-turbo (Free)".data :=
  ⟨(c10_model_name_sent "anthropic/claude-2").2.1 (by decide),
   ((c10_model_name_sent "openai/gpt-3.5-turbo (Free)").2.2 (by decide)).1⟩

end ChatbotQT
